import Mathlib

/-!
Verification of the contact-management HTTP backend (Express + better-sqlite3).

The development shallowly embeds the request handlers of the server source
(`src/unnamed/part_000`) together with the SQLite-backed contact store:

* the `contacts` table is a list of rows in insertion (rowid) order plus the
  next auto-increment identifier;
* the `CURRENT_TIMESTAMP` default is modelled by passing the server clock value
  (`now : Nat`) into the create operation;
* SQLite's `DATETIME` text is abstracted to a numeric tick, which preserves the
  ordering behaviour of `ORDER BY created_at DESC`;
* JSON response bodies are modelled by an explicit `Json` value type so that
  the presence/absence and the runtime type of envelope fields is observable;
* each handler's `try` block is modelled by a pure function on the store state
  (the driver performs no failing operation on these paths), and each handler's
  `catch` block is modelled separately as a function of the thrown error
  message, mirroring the translation rules of the source;
* structured logging calls are side effects outside the response contract and
  are not modelled.
-/

/-- A JSON value, as serialized by `res.json`.  Arrays and objects keep their
field order, matching JavaScript object/array semantics. -/
inductive Json where
  | jnull : Json
  | jnum : Int → Json
  | jstr : String → Json
  | jarr : List Json → Json
  | jobj : List (String × Json) → Json
deriving Repr

/-- Field names of a JSON object (empty for non-objects). -/
def jsonKeys : Json → List String
  | Json.jobj fields => fields.map Prod.fst
  | _ => []

/-- Field lookup in a JSON object (none for non-objects or missing keys). -/
def lookupField (key : String) : Json → Option Json
  | Json.jobj fields => fields.lookup key
  | _ => none

/-- One row of the `contacts` table:
`id INTEGER PRIMARY KEY AUTOINCREMENT, name TEXT NOT NULL, phone TEXT NOT NULL,
email TEXT, address TEXT, created_at DATETIME DEFAULT CURRENT_TIMESTAMP`. -/
structure Contact where
  id : Nat
  name : String
  phone : String
  email : Option String
  address : Option String
  created_at : Nat
deriving Repr, DecidableEq

/-- The database state: rows in insertion (rowid) order, plus the next
auto-increment identifier. -/
structure DB where
  rows : List Contact
  nextId : Nat
deriving Repr, DecidableEq

/-- A fresh database, as produced by the `CREATE TABLE IF NOT EXISTS` at
startup: no rows, auto-increment starting at 1. -/
def emptyDB : DB := { rows := [], nextId := 1 }

/-- `ERROR_CODES.SUCCESS`. -/
def SUCCESS : Int := 0

/-- `ERROR_CODES.VALIDATION_ERROR`. -/
def VALIDATION_ERROR : Int := 1

/-- `ERROR_CODES.NOT_FOUND`. -/
def NOT_FOUND : Int := 2

/-- `ERROR_CODES.DATABASE_ERROR`. -/
def DATABASE_ERROR : Int := 3

/-- `ERROR_CODES.NETWORK_ERROR` (reserved, never sent by a handler). -/
def NETWORK_ERROR : Int := -1

/-- `ERROR_MESSAGES.REQUIRED_FIELD_MISSING`. -/
def REQUIRED_FIELD_MISSING : String := "Required field is missing"

/-- `ERROR_MESSAGES.EMAIL_ALREADY_EXISTS`. -/
def EMAIL_ALREADY_EXISTS : String := "Email already exists in the system"

/-- `ERROR_MESSAGES.CONTACT_NOT_FOUND`. -/
def CONTACT_NOT_FOUND : String := "Contact not found"

/-- `ERROR_MESSAGES.INVALID_CONTACT_ID`. -/
def INVALID_CONTACT_ID : String := "Invalid contact ID provided"

/-- `ERROR_MESSAGES.CONTACT_CREATED`. -/
def CONTACT_CREATED : String := "Contact created successfully"

/-- `ERROR_MESSAGES.CONTACT_UPDATED`. -/
def CONTACT_UPDATED : String := "Contact updated successfully"

/-- `ERROR_MESSAGES.CONTACT_DELETED`. -/
def CONTACT_DELETED : String := "Contact deleted successfully"

/-- `ERROR_MESSAGES.DATA_RETRIEVAL_FAILED`. -/
def DATA_RETRIEVAL_FAILED : String := "Failed to retrieve data"

/-- `ERROR_MESSAGES.DATA_SAVE_FAILED`. -/
def DATA_SAVE_FAILED : String := "Failed to save data"

/-- `ERROR_MESSAGES.DATA_UPDATE_FAILED`. -/
def DATA_UPDATE_FAILED : String := "Failed to update data"

/-- `ERROR_MESSAGES.DATA_DELETE_FAILED`. -/
def DATA_DELETE_FAILED : String := "Failed to delete data"

/-- The response envelope produced by `sendResponse`: `code` and `msg` are
always present (`msg` may be JSON null = `none`); the `data` field is attached
to the object only when the payload argument is not null (`none`). -/
structure Response where
  code : Int
  msg : Option String
  data : Option Json
deriving Repr

/-- `sendResponse(res, code, msg, data)`: builds `{ code, msg }` and attaches
`data` only when it is not null.  The JavaScript default argument `data = null`
is written explicitly as `none` at call sites. -/
def sendResponse (code : Int) (msg : Option String) (data : Option Json) : Response :=
  { code := code, msg := msg, data := data }

/-- A request body as destructured by `const { name, phone, email, address } =
req.body`: each field is either a string or absent (`undefined`). -/
structure Body where
  name : Option String
  phone : Option String
  email : Option String
  address : Option String
deriving Repr

/-- JavaScript falsiness of a body field: `!x` is true when the field is
absent (`undefined`) or the empty string.  (Non-string body values are outside
the modelled input space.) -/
def isFalsy : Option String → Bool
  | none => true
  | some s => s == ""

/-- `validateContactInput(name, phone)`: returns the error message when name
or phone is falsy, null otherwise. -/
def validateContactInput (name phone : Option String) : Option String :=
  if isFalsy name || isFalsy phone then some REQUIRED_FIELD_MISSING else none

/-- The JavaScript expression `x || null` applied to an optional string field:
an absent field or the empty string becomes null. -/
def jsOrNull : Option String → Option String
  | none => none
  | some s => if s == "" then none else some s

/-- Serialization of a nullable text column into JSON. -/
def optStrJson : Option String → Json
  | none => Json.jnull
  | some s => Json.jstr s

/-- Serialization of a full row, as returned by `SELECT *` and `res.json`. -/
def contactToJson (c : Contact) : Json :=
  Json.jobj [
    ("id", Json.jnum (c.id : Int)),
    ("name", Json.jstr c.name),
    ("phone", Json.jstr c.phone),
    ("email", optStrJson c.email),
    ("address", optStrJson c.address),
    ("created_at", Json.jnum (c.created_at : Int))]

/-- Whether every character of the list is a decimal digit. -/
def allDigits : List Char → Bool
  | [] => true
  | c :: cs => c.isDigit && allDigits cs

/-- Numeric value of a decimal-digit character list. -/
def decNat (cs : List Char) : Nat :=
  cs.foldl (fun n c => n * 10 + (c.toNat - 48)) 0

/-- Decimal interpretation of a string: `some` of its value when it is a
nonempty string of decimal digits, `none` otherwise.  This models how both
SQLite's INTEGER-affinity conversion and JavaScript's numeric coercion treat
the strings in the modelled input space (URL path segments: no surrounding
whitespace, and no sign, fraction or exponent syntax). -/
def strToNat? (s : String) : Option Nat :=
  if !s.data.isEmpty && allDigits s.data then some (decNat s.data) else none

/-- SQLite comparison of the bound text parameter `req.params.id` against the
INTEGER-affinity `id` column: a decimal-digit string is converted to the
corresponding integer and compared numerically; any other string stays TEXT
and never equals an INTEGER value. -/
def idMatches (idParam : String) (rowId : Nat) : Bool :=
  strToNat? idParam == some rowId

/-- JavaScript `isNaN(s)` on a route-parameter string: the empty string
coerces to 0 and is not NaN; a decimal-digit string is a number; any other
modelled string is NaN. -/
def jsIsNaN (s : String) : Bool :=
  if s.data.isEmpty then false else (strToNat? s).isNone

/-- Whether the second character list starts with the first. -/
def charsStartWith : List Char → List Char → Bool
  | [], _ => true
  | _ :: _, [] => false
  | a :: as, b :: bs => (a == b) && charsStartWith as bs

/-- Whether the needle occurs anywhere in the haystack, the semantics of
JavaScript `String.prototype.includes`. -/
def charsContain (needle : List Char) : List Char → Bool
  | [] => charsStartWith needle []
  | b :: bs => charsStartWith needle (b :: bs) || charsContain needle bs

/-- `error.message.includes('UNIQUE constraint failed')`. -/
def includesUniqueViolation (m : String) : Bool :=
  charsContain "UNIQUE constraint failed".data m.data

/-- Stable insertion of a row into a list already sorted by `created_at`
descending: the row goes after every earlier row with a greater-or-equal
timestamp, so equal timestamps keep insertion order. -/
def insertDesc (c : Contact) : List Contact → List Contact
  | [] => [c]
  | d :: ds => if c.created_at ≤ d.created_at then d :: insertDesc c ds else c :: d :: ds

/-- `SELECT * FROM contacts ORDER BY created_at DESC`: a stable descending
sort on `created_at`.  (SQLite leaves the relative order of equal keys
unspecified; rows with pairwise distinct timestamps are returned most recent
first under any implementation, and the ordering theorems below assume
distinct timestamps.) -/
def sortByCreatedDesc (l : List Contact) : List Contact :=
  l.foldl (fun acc c => insertDesc c acc) []

/-- `GET /api/health`: `sendResponse(res, SUCCESS, null)`. -/
def healthCheck : Response :=
  sendResponse SUCCESS none none

/-- `GET /api/contacts` (try branch): select all rows ordered by creation
time descending and send them as the payload with a null message. -/
def getContacts (db : DB) : Response :=
  sendResponse SUCCESS none (some (Json.jarr ((sortByCreatedDesc db.rows).map contactToJson)))

/-- `GET /api/contacts` catch branch, as a function of the thrown error
message. -/
def listCatch (m : String) : Response :=
  sendResponse DATABASE_ERROR (some DATA_RETRIEVAL_FAILED) none

/-- `POST /api/contacts`: validate, then insert and echo the constructed
record.  The store assigns the auto-increment identifier and the creation
timestamp (the server clock `now`); the response payload carries the
identifier but not the timestamp. -/
def postContact (db : DB) (now : Nat) (b : Body) : Response × DB :=
  match validateContactInput b.name b.phone with
  | some err => (sendResponse VALIDATION_ERROR (some err) none, db)
  | none =>
    let name := b.name.getD ""
    let phone := b.phone.getD ""
    let newId := db.nextId
    let row : Contact :=
      { id := newId, name := name, phone := phone,
        email := jsOrNull b.email, address := jsOrNull b.address, created_at := now }
    let db2 : DB := { rows := db.rows ++ [row], nextId := db.nextId + 1 }
    (sendResponse SUCCESS (some CONTACT_CREATED) (some (Json.jobj [
      ("id", Json.jnum (newId : Int)),
      ("name", Json.jstr name),
      ("phone", Json.jstr phone),
      ("email", optStrJson (jsOrNull b.email)),
      ("address", optStrJson (jsOrNull b.address))])), db2)

/-- `POST /api/contacts` catch branch: a uniqueness-constraint message becomes
a validation failure, anything else a database failure. -/
def postCatch (m : String) : Response :=
  if (m != "") && includesUniqueViolation m then
    sendResponse VALIDATION_ERROR (some EMAIL_ALREADY_EXISTS) none
  else
    sendResponse DATABASE_ERROR (some DATA_SAVE_FAILED) none

/-- `SELECT * FROM contacts WHERE id = ?` with `.get`: the first matching
row, if any. -/
def findById (idParam : String) (rows : List Contact) : Option Contact :=
  rows.find? (fun c => idMatches idParam c.id)

/-- `GET /api/contacts/:id` (try branch): return the row when found,
otherwise a not-found failure with the identifier embedded in the message.
A non-numeric identifier does not make the driver throw - it binds as TEXT
and matches no INTEGER id, so this branch also covers that input. -/
def getContactById (db : DB) (idParam : String) : Response :=
  match findById idParam db.rows with
  | some c => sendResponse SUCCESS none (some (contactToJson c))
  | none =>
    sendResponse NOT_FOUND (some (CONTACT_NOT_FOUND ++ " (ID: " ++ idParam ++ ")")) none

/-- `GET /api/contacts/:id` catch branch: a validation failure when the
identifier is non-numeric, otherwise a database failure - the thrown message
itself is never inspected. -/
def getByIdCatch (idParam m : String) : Response :=
  if jsIsNaN idParam then
    sendResponse VALIDATION_ERROR (some INVALID_CONTACT_ID) none
  else
    sendResponse DATABASE_ERROR (some DATA_RETRIEVAL_FAILED) none

/-- Effect of `UPDATE contacts SET name = ?, phone = ?, email = ?,
address = ? WHERE id = ?` on one row: matching rows get the bound values
(`email`/`address` bound as `x || null`), identifier and creation timestamp
untouched; other rows unchanged. -/
def updRow (idParam : String) (b : Body) (c : Contact) : Contact :=
  if idMatches idParam c.id then
    { c with name := b.name.getD "", phone := b.phone.getD "",
             email := jsOrNull b.email, address := jsOrNull b.address }
  else c

/-- `PUT /api/contacts/:id`: validate, run the UPDATE, then branch on
`result.changes` (the number of matched rows).  On success the payload echoes
the raw path parameter string as `id` together with the submitted fields; on
zero changes a not-found failure with a plain message. -/
def putContact (db : DB) (idParam : String) (b : Body) : Response × DB :=
  match validateContactInput b.name b.phone with
  | some err => (sendResponse VALIDATION_ERROR (some err) none, db)
  | none =>
    let newRows := db.rows.map (updRow idParam b)
    let changes := (db.rows.filter (fun c => idMatches idParam c.id)).length
    let db2 : DB := { rows := newRows, nextId := db.nextId }
    if changes > 0 then
      (sendResponse SUCCESS (some CONTACT_UPDATED) (some (Json.jobj [
        ("id", Json.jstr idParam),
        ("name", Json.jstr (b.name.getD "")),
        ("phone", Json.jstr (b.phone.getD "")),
        ("email", optStrJson (jsOrNull b.email)),
        ("address", optStrJson (jsOrNull b.address))])), db2)
    else
      (sendResponse NOT_FOUND (some CONTACT_NOT_FOUND) none, db2)

/-- `PUT /api/contacts/:id` catch branch: same uniqueness translation as
create, with the update-specific database-failure message. -/
def putCatch (m : String) : Response :=
  if (m != "") && includesUniqueViolation m then
    sendResponse VALIDATION_ERROR (some EMAIL_ALREADY_EXISTS) none
  else
    sendResponse DATABASE_ERROR (some DATA_UPDATE_FAILED) none

/-- `DELETE /api/contacts/:id`: run the DELETE, then branch on
`result.changes`.  On success a bare success message and no payload; on zero
changes a not-found failure with the identifier embedded in the message. -/
def deleteContact (db : DB) (idParam : String) : Response × DB :=
  let remaining := db.rows.filter (fun c => !(idMatches idParam c.id))
  let changes := (db.rows.filter (fun c => idMatches idParam c.id)).length
  let db2 : DB := { rows := remaining, nextId := db.nextId }
  if changes > 0 then
    (sendResponse SUCCESS (some CONTACT_DELETED) none, db2)
  else
    (sendResponse NOT_FOUND (some (CONTACT_NOT_FOUND ++ " (ID: " ++ idParam ++ ")")) none, db2)

/-- `DELETE /api/contacts/:id` catch branch: like the get-by-id catch, with
the delete-specific database-failure message. -/
def deleteCatch (idParam m : String) : Response :=
  if jsIsNaN idParam then
    sendResponse VALIDATION_ERROR (some INVALID_CONTACT_ID) none
  else
    sendResponse DATABASE_ERROR (some DATA_DELETE_FAILED) none

/-- Sample store state with a single row, used by concrete witnesses. -/
def sampleDB : DB :=
  { rows := [{ id := 1, name := "John", phone := "123",
               email := none, address := none, created_at := 0 }],
    nextId := 2 }

/-! ## Helper lemmas -/

/-- The UPDATE statement never touches the `id` column. -/
theorem updRow_id (s : String) (b : Body) (c : Contact) :
    (updRow s b c).id = c.id := by
  unfold updRow
  split <;> rfl

/-- Applying the same UPDATE row-transformation twice is the same as applying
it once. -/
theorem updRow_idem (s : String) (b : Body) (c : Contact) :
    updRow s b (updRow s b c) = updRow s b c := by
  unfold updRow
  by_cases h : idMatches s c.id = true
  · simp [h]
  · simp [h]

/-- An UPDATE whose WHERE clause matches no row leaves the table unchanged. -/
theorem map_updRow_no_match (s : String) (b : Body) (l : List Contact)
    (h : ∀ c ∈ l, idMatches s c.id = false) :
    l.map (updRow s b) = l := by
  induction l with
  | nil => rfl
  | cons x xs ih =>
    have hx := h x (List.mem_cons_self x xs)
    have ihx := ih (fun c hcm => h c (List.mem_cons_of_mem x hcm))
    simp [updRow, hx, ihx]

/-- When no row matches, the matched-row filter is empty. -/
theorem filter_match_nil (s : String) (l : List Contact)
    (h : ∀ c ∈ l, idMatches s c.id = false) :
    l.filter (fun c => idMatches s c.id) = [] := by
  induction l with
  | nil => rfl
  | cons x xs ih =>
    have hx := h x (List.mem_cons_self x xs)
    have ihx := ih (fun c hcm => h c (List.mem_cons_of_mem x hcm))
    simp [List.filter_cons, hx, ihx]

/-- A DELETE whose WHERE clause matches no row keeps every row. -/
theorem filter_no_match_keep_all (s : String) (l : List Contact)
    (h : ∀ c ∈ l, idMatches s c.id = false) :
    l.filter (fun c => !(idMatches s c.id)) = l := by
  induction l with
  | nil => rfl
  | cons x xs ih =>
    have hx := h x (List.mem_cons_self x xs)
    have ihx := ih (fun c hcm => h c (List.mem_cons_of_mem x hcm))
    simp [List.filter_cons, hx, ihx]

/-- Re-running the UPDATE on an already-updated table changes nothing. -/
theorem map_updRow_idem (s : String) (b : Body) (l : List Contact) :
    (l.map (updRow s b)).map (updRow s b) = l.map (updRow s b) := by
  induction l with
  | nil => rfl
  | cons x xs ih => simp [updRow_idem, ih]

/-! ## Claim C1 -/

/-- Claim C1 counterexample: `GET /api/contacts/abc` on a fresh store returns
the not-found envelope (code 2), not a validation failure (code 1) - the
non-numeric parameter binds as TEXT, matches no row, and the driver does not
throw, so the `isNaN` branch in the catch block is never reached. -/
theorem getById_nonNumeric_counterexample :
    getContactById emptyDB "abc" =
      sendResponse NOT_FOUND (some "Contact not found (ID: abc)") none
    ∧ NOT_FOUND ≠ VALIDATION_ERROR := by
  exact ⟨rfl, by decide⟩

/-- Claim C1 (amended): a non-numeric identifier matches no row, so the try
branch returns a not-found failure with the identifier embedded in the
message; the validation failure (code 1) is produced only by the catch
branch, i.e. only when the storage call has thrown and the identifier is
non-numeric. -/
theorem getById_nonNumeric (db : DB) (s m : String)
    (h1 : strToNat? s = none) (h2 : jsIsNaN s = true) :
    getContactById db s =
      sendResponse NOT_FOUND (some (CONTACT_NOT_FOUND ++ " (ID: " ++ s ++ ")")) none
    ∧ getByIdCatch s m = sendResponse VALIDATION_ERROR (some INVALID_CONTACT_ID) none := by
  constructor
  · have hf : findById s db.rows = none := by
      apply List.find?_eq_none.mpr
      intro c hc
      simp [idMatches, h1]
    simp [getContactById, hf]
  · simp [getByIdCatch, h2]

/-- Claim C1 witness: concrete instantiation at identifier "abc". -/
theorem getById_nonNumeric_witness :
    strToNat? "abc" = none ∧ jsIsNaN "abc" = true ∧
    (getContactById sampleDB "abc" =
      sendResponse NOT_FOUND (some (CONTACT_NOT_FOUND ++ " (ID: " ++ "abc" ++ ")")) none
    ∧ getByIdCatch "abc" "boom" =
        sendResponse VALIDATION_ERROR (some INVALID_CONTACT_ID) none) :=
  ⟨by decide, by decide, getById_nonNumeric sampleDB "abc" "boom" (by decide) (by decide)⟩

/-! ## Claim C3 -/

/-- Claim C3: a create or update request whose name or phone is missing or
empty is rejected by `validateContactInput` before any storage call: the
handler returns the validation envelope (code 1) and the store state is
returned unchanged. -/
theorem invalid_input_no_side_effects (db : DB) (now : Nat) (s : String) (b : Body)
    (h : (isFalsy b.name || isFalsy b.phone) = true) :
    postContact db now b = (sendResponse VALIDATION_ERROR (some REQUIRED_FIELD_MISSING) none, db)
    ∧ putContact db s b = (sendResponse VALIDATION_ERROR (some REQUIRED_FIELD_MISSING) none, db) := by
  constructor <;> simp [postContact, putContact, validateContactInput, h]

/-- Claim C3 witness: creating/updating with an empty name on the one-row
sample store yields the validation envelope and the unchanged store. -/
theorem invalid_input_no_side_effects_witness :
    (isFalsy (Body.mk (some "") (some "123") none none).name
      || isFalsy (Body.mk (some "") (some "123") none none).phone) = true ∧
    (postContact sampleDB 5 (Body.mk (some "") (some "123") none none) =
        (sendResponse VALIDATION_ERROR (some REQUIRED_FIELD_MISSING) none, sampleDB)
    ∧ putContact sampleDB "1" (Body.mk (some "") (some "123") none none) =
        (sendResponse VALIDATION_ERROR (some REQUIRED_FIELD_MISSING) none, sampleDB)) :=
  ⟨by decide,
   invalid_input_no_side_effects sampleDB 5 "1"
     (Body.mk (some "") (some "123") none none) (by decide)⟩

/-! ## Claim C5 -/

/-- Claim C5 counterexample: the get-by-id catch block, handed a storage
exception whose message is a uniqueness-constraint violation and a numeric
identifier, answers with the database-failure envelope (code 3), not the
validation envelope (code 1) - only the create and update handlers inspect
the message. -/
theorem catch_unique_counterexample :
    getByIdCatch "7" "UNIQUE constraint failed: contacts.email" =
      sendResponse DATABASE_ERROR (some DATA_RETRIEVAL_FAILED) none
    ∧ DATABASE_ERROR ≠ VALIDATION_ERROR := by
  refine ⟨?_, by decide⟩
  have h7 : jsIsNaN "7" = false := by decide
  simp [getByIdCatch, h7]

/-- Claim C5 (amended): only the create and update catch blocks translate a
uniqueness-constraint message into a validation failure; the list, get and
delete catch blocks translate every storage exception - uniqueness violations
included - into a database failure whenever the identifier (where one exists)
is numeric. -/
theorem catch_translation_rule (m idp : String)
    (hm : includesUniqueViolation m = true) (hid : jsIsNaN idp = false) :
    postCatch m = sendResponse VALIDATION_ERROR (some EMAIL_ALREADY_EXISTS) none
    ∧ putCatch m = sendResponse VALIDATION_ERROR (some EMAIL_ALREADY_EXISTS) none
    ∧ listCatch m = sendResponse DATABASE_ERROR (some DATA_RETRIEVAL_FAILED) none
    ∧ getByIdCatch idp m = sendResponse DATABASE_ERROR (some DATA_RETRIEVAL_FAILED) none
    ∧ deleteCatch idp m = sendResponse DATABASE_ERROR (some DATA_DELETE_FAILED) none := by
  have hne : (m != "") = true := by
    rcases eq_or_ne m "" with h | h
    · subst h
      exact absurd hm (by decide)
    · simp [h]
  refine ⟨?_, ?_, rfl, ?_, ?_⟩ <;>
    simp [postCatch, putCatch, getByIdCatch, deleteCatch, hne, hm, hid]

/-- Claim C5 witness: concrete instantiation at a uniqueness-violation
message and the numeric identifier "7". -/
theorem catch_translation_rule_witness :
    includesUniqueViolation "UNIQUE constraint failed: contacts.email" = true ∧
    jsIsNaN "7" = false ∧
    (postCatch "UNIQUE constraint failed: contacts.email" =
        sendResponse VALIDATION_ERROR (some EMAIL_ALREADY_EXISTS) none
    ∧ putCatch "UNIQUE constraint failed: contacts.email" =
        sendResponse VALIDATION_ERROR (some EMAIL_ALREADY_EXISTS) none
    ∧ listCatch "UNIQUE constraint failed: contacts.email" =
        sendResponse DATABASE_ERROR (some DATA_RETRIEVAL_FAILED) none
    ∧ getByIdCatch "7" "UNIQUE constraint failed: contacts.email" =
        sendResponse DATABASE_ERROR (some DATA_RETRIEVAL_FAILED) none
    ∧ deleteCatch "7" "UNIQUE constraint failed: contacts.email" =
        sendResponse DATABASE_ERROR (some DATA_DELETE_FAILED) none) :=
  ⟨by decide, by decide,
   catch_translation_rule "UNIQUE constraint failed: contacts.email" "7"
     (by decide) (by decide)⟩

/-! ## Claim C4 -/

/-- Claim C4: a get, update (with a valid body) or delete request whose
numeric identifier matches no stored row returns the not-found envelope
(code 2) and leaves the stored row set unchanged; for get and delete the
identifier is embedded in the message text, for update the plain message is
sent. -/
theorem nonexistent_id_not_found (db : DB) (s : String) (n : Nat) (b : Body)
    (hn : strToNat? s = some n) (hno : ∀ c ∈ db.rows, c.id ≠ n)
    (hb : (isFalsy b.name || isFalsy b.phone) = false) :
    getContactById db s =
      sendResponse NOT_FOUND (some (CONTACT_NOT_FOUND ++ " (ID: " ++ s ++ ")")) none
    ∧ putContact db s b = (sendResponse NOT_FOUND (some CONTACT_NOT_FOUND) none, db)
    ∧ deleteContact db s =
        (sendResponse NOT_FOUND (some (CONTACT_NOT_FOUND ++ " (ID: " ++ s ++ ")")) none, db) := by
  have hmatch : ∀ c ∈ db.rows, idMatches s c.id = false := by
    intro c hc
    have hcn : n ≠ c.id := Ne.symm (hno c hc)
    simp [idMatches, hn, hcn]
  refine ⟨?_, ?_, ?_⟩
  · have hf : findById s db.rows = none :=
      List.find?_eq_none.mpr (fun c hc => by simp [hmatch c hc])
    simp [getContactById, hf]
  · have hv : validateContactInput b.name b.phone = none := by
      simp [validateContactInput, hb]
    have hfm := filter_match_nil s db.rows hmatch
    have hmap := map_updRow_no_match s b db.rows hmatch
    simp [putContact, hv, hfm, hmap]
  · have hfm := filter_match_nil s db.rows hmatch
    have hka := filter_no_match_keep_all s db.rows hmatch
    simp [deleteContact, hfm, hka]

/-- Claim C4 witness: identifier "9" on the one-row sample store. -/
theorem nonexistent_id_not_found_witness :
    strToNat? "9" = some 9 ∧ (∀ c ∈ sampleDB.rows, c.id ≠ 9) ∧
    (isFalsy (Body.mk (some "Jane") (some "456") none none).name
      || isFalsy (Body.mk (some "Jane") (some "456") none none).phone) = false ∧
    (getContactById sampleDB "9" =
      sendResponse NOT_FOUND (some (CONTACT_NOT_FOUND ++ " (ID: " ++ "9" ++ ")")) none
    ∧ putContact sampleDB "9" (Body.mk (some "Jane") (some "456") none none) =
        (sendResponse NOT_FOUND (some CONTACT_NOT_FOUND) none, sampleDB)
    ∧ deleteContact sampleDB "9" =
        (sendResponse NOT_FOUND (some (CONTACT_NOT_FOUND ++ " (ID: " ++ "9" ++ ")")) none, sampleDB)) :=
  ⟨by decide, by decide, by decide,
   nonexistent_id_not_found sampleDB "9" 9 (Body.mk (some "Jane") (some "456") none none)
     (by decide) (by decide) (by decide)⟩

/-! ## Claim C7 -/

/-- Claim C7: update is idempotent - for an existing identifier and a valid
payload, running the same update twice returns the same success response both
times and leaves the stored rows after the second run identical to the rows
after the first. -/
theorem update_idempotent (db : DB) (s : String) (b : Body) (c0 : Contact)
    (hb : (isFalsy b.name || isFalsy b.phone) = false)
    (hc : c0 ∈ db.rows) (hm : idMatches s c0.id = true) :
    putContact (putContact db s b).2 s b = putContact db s b := by
  have hv : validateContactInput b.name b.phone = none := by
    simp [validateContactInput, hb]
  have hpos1 : 0 < (db.rows.filter (fun c => idMatches s c.id)).length :=
    List.length_pos_of_mem (List.mem_filter.mpr ⟨hc, hm⟩)
  have hmem2 : updRow s b c0 ∈ db.rows.map (updRow s b) :=
    List.mem_map_of_mem _ hc
  have hm2 : idMatches s (updRow s b c0).id = true := by
    rw [updRow_id]
    exact hm
  have hpos2 : 0 < ((db.rows.map (updRow s b)).filter (fun c => idMatches s c.id)).length :=
    List.length_pos_of_mem (List.mem_filter.mpr ⟨hmem2, hm2⟩)
  simp [putContact, hv, hpos1, hpos2]
  exact fun a _ => updRow_idem s b a

/-- Claim C7 witness: updating row 1 of the sample store twice with the same
payload. -/
theorem update_idempotent_witness :
    (isFalsy (Body.mk (some "Jane") (some "456") none none).name
      || isFalsy (Body.mk (some "Jane") (some "456") none none).phone) = false ∧
    ({ id := 1, name := "John", phone := "123",
       email := none, address := none, created_at := 0 } : Contact) ∈ sampleDB.rows ∧
    idMatches "1" (1 : Nat) = true ∧
    putContact (putContact sampleDB "1" (Body.mk (some "Jane") (some "456") none none)).2 "1"
        (Body.mk (some "Jane") (some "456") none none) =
      putContact sampleDB "1" (Body.mk (some "Jane") (some "456") none none) :=
  ⟨by decide, by decide, by decide,
   update_idempotent sampleDB "1" (Body.mk (some "Jane") (some "456") none none)
     { id := 1, name := "John", phone := "123",
       email := none, address := none, created_at := 0 }
     (by decide) (by decide) (by decide)⟩

/-! ## Claim C2 -/

/-- Claim C2: creating A then B then C (valid bodies, strictly increasing
server clock) and then listing returns every stored row ordered by creation
time, most recently created first: [C, B, A]. -/
theorem list_after_three_creates
    (nA pA nB pB nC pC : String) (eA aA eB aB eC aC : Option String)
    (hnA : nA ≠ "") (hpA : pA ≠ "") (hnB : nB ≠ "") (hpB : pB ≠ "")
    (hnC : nC ≠ "") (hpC : pC ≠ "")
    (t1 t2 t3 : Nat) (h12 : t1 < t2) (h23 : t2 < t3) :
    getContacts (postContact (postContact (postContact emptyDB t1
        (Body.mk (some nA) (some pA) eA aA)).2 t2
        (Body.mk (some nB) (some pB) eB aB)).2 t3
        (Body.mk (some nC) (some pC) eC aC)).2 =
      sendResponse SUCCESS none (some (Json.jarr [
        contactToJson { id := 3, name := nC, phone := pC,
                        email := jsOrNull eC, address := jsOrNull aC, created_at := t3 },
        contactToJson { id := 2, name := nB, phone := pB,
                        email := jsOrNull eB, address := jsOrNull aB, created_at := t2 },
        contactToJson { id := 1, name := nA, phone := pA,
                        email := jsOrNull eA, address := jsOrNull aA, created_at := t1 }])) := by
  have h21 : ¬ (t2 ≤ t1) := not_le.mpr h12
  have h32 : ¬ (t3 ≤ t2) := not_le.mpr h23
  simp [postContact, validateContactInput, isFalsy, hnA, hpA, hnB, hpB, hnC, hpC,
        getContacts, sortByCreatedDesc, insertDesc, h21, h32, emptyDB]

/-- Claim C2 witness: three concrete creates at clock ticks 1 < 2 < 3. -/
theorem list_after_three_creates_witness :
    ("A" : String) ≠ "" ∧ ("1" : String) ≠ "" ∧ ("B" : String) ≠ "" ∧ ("2" : String) ≠ ""
    ∧ ("C" : String) ≠ "" ∧ ("3" : String) ≠ "" ∧ (1 : Nat) < 2 ∧ (2 : Nat) < 3 ∧
    getContacts (postContact (postContact (postContact emptyDB 1
        (Body.mk (some "A") (some "1") none none)).2 2
        (Body.mk (some "B") (some "2") none none)).2 3
        (Body.mk (some "C") (some "3") none none)).2 =
      sendResponse SUCCESS none (some (Json.jarr [
        contactToJson { id := 3, name := "C", phone := "3",
                        email := jsOrNull none, address := jsOrNull none, created_at := 3 },
        contactToJson { id := 2, name := "B", phone := "2",
                        email := jsOrNull none, address := jsOrNull none, created_at := 2 },
        contactToJson { id := 1, name := "A", phone := "1",
                        email := jsOrNull none, address := jsOrNull none, created_at := 1 }])) :=
  ⟨by decide, by decide, by decide, by decide, by decide, by decide, by decide, by decide,
   list_after_three_creates "A" "1" "B" "2" "C" "3" none none none none none none
     (by decide) (by decide) (by decide) (by decide) (by decide) (by decide)
     1 2 3 (by decide) (by decide)⟩

/-! ## Claim C6 -/

/-- Claim C6 counterexample: the success payload of a create carries no
creation timestamp - at input name "John", phone "123" on a fresh store the
payload has exactly the keys id, name, phone, email, address, and its
envelope code is the same bare success code 0 used by list and get. -/
theorem create_payload_counterexample :
    lookupField "created_at"
        (((postContact emptyDB 5 (Body.mk (some "John") (some "123") none none)).1).data.getD Json.jnull) = none
    ∧ jsonKeys (((postContact emptyDB 5 (Body.mk (some "John") (some "123") none none)).1).data.getD Json.jnull) =
        ["id", "name", "phone", "email", "address"]
    ∧ ((postContact emptyDB 5 (Body.mk (some "John") (some "123") none none)).1).code = SUCCESS := by
  refine ⟨?_, ?_, ?_⟩ <;> rfl

/-- Claim C6 (amended): a successful create returns the envelope with the
bare success code 0, the message CONTACT_CREATED (the "created" distinction
is carried by the message, not by the code), and a payload echoing the
submitted name, phone, email and address plus the server-assigned identifier
- but not the server-assigned creation timestamp. -/
theorem create_success_response (db : DB) (now : Nat) (b : Body)
    (hb : (isFalsy b.name || isFalsy b.phone) = false) :
    (postContact db now b).1 =
      sendResponse SUCCESS (some CONTACT_CREATED) (some (Json.jobj [
        ("id", Json.jnum (db.nextId : Int)),
        ("name", Json.jstr (b.name.getD "")),
        ("phone", Json.jstr (b.phone.getD "")),
        ("email", optStrJson (jsOrNull b.email)),
        ("address", optStrJson (jsOrNull b.address))]))
    ∧ lookupField "created_at" (((postContact db now b).1).data.getD Json.jnull) = none
    ∧ ((postContact db now b).1).msg ≠ none := by
  have hv : validateContactInput b.name b.phone = none := by
    simp [validateContactInput, hb]
  refine ⟨?_, ?_, ?_⟩ <;> simp [postContact, hv, lookupField, List.lookup, sendResponse]

/-- Claim C6 witness: concrete create on the sample store. -/
theorem create_success_response_witness :
    (isFalsy (Body.mk (some "Ann") (some "789") (some "a@x.io") none).name
      || isFalsy (Body.mk (some "Ann") (some "789") (some "a@x.io") none).phone) = false ∧
    ((postContact sampleDB 9 (Body.mk (some "Ann") (some "789") (some "a@x.io") none)).1 =
      sendResponse SUCCESS (some CONTACT_CREATED) (some (Json.jobj [
        ("id", Json.jnum ((sampleDB.nextId : Nat) : Int)),
        ("name", Json.jstr ((Body.mk (some "Ann") (some "789") (some "a@x.io") none).name.getD "")),
        ("phone", Json.jstr ((Body.mk (some "Ann") (some "789") (some "a@x.io") none).phone.getD "")),
        ("email", optStrJson (jsOrNull (Body.mk (some "Ann") (some "789") (some "a@x.io") none).email)),
        ("address", optStrJson (jsOrNull (Body.mk (some "Ann") (some "789") (some "a@x.io") none).address))]))
    ∧ lookupField "created_at"
        (((postContact sampleDB 9 (Body.mk (some "Ann") (some "789") (some "a@x.io") none)).1).data.getD Json.jnull) = none
    ∧ ((postContact sampleDB 9 (Body.mk (some "Ann") (some "789") (some "a@x.io") none)).1).msg ≠ none) :=
  ⟨by decide,
   create_success_response sampleDB 9 (Body.mk (some "Ann") (some "789") (some "a@x.io") none)
     (by decide)⟩

/-! ## Claim C8 -/

/-- Claim C8: the `data` field is present exactly when the operation yields a
payload - absent for health and successful delete, present for successful
list (an empty array when the store is empty), get, create and update - and
`msg` is null on successful list/get but a non-null string on successful
create, update and delete. -/
theorem envelope_field_presence (db : DB) (s : String) (b : Body) (now : Nat) (c0 : Contact)
    (hb : (isFalsy b.name || isFalsy b.phone) = false)
    (hfind : findById s db.rows = some c0) :
    healthCheck.data = none
    ∧ (getContacts db).data = some (Json.jarr ((sortByCreatedDesc db.rows).map contactToJson))
    ∧ (getContacts db).msg = none
    ∧ (getContacts emptyDB).data = some (Json.jarr [])
    ∧ (getContactById db s).data = some (contactToJson c0)
    ∧ (getContactById db s).msg = none
    ∧ ((postContact db now b).1).data ≠ none
    ∧ ((postContact db now b).1).msg ≠ none
    ∧ ((putContact db s b).1).data ≠ none
    ∧ ((putContact db s b).1).msg ≠ none
    ∧ ((deleteContact db s).1).data = none
    ∧ ((deleteContact db s).1).msg ≠ none := by
  have hv : validateContactInput b.name b.phone = none := by
    simp [validateContactInput, hb]
  have hfind' : db.rows.find? (fun c => idMatches s c.id) = some c0 := hfind
  have hc0mem : c0 ∈ db.rows := List.mem_of_find?_eq_some hfind'
  have hc0m : idMatches s c0.id = true :=
    List.find?_some (p := fun c : Contact => idMatches s c.id) hfind'
  have hpos : 0 < (db.rows.filter (fun c => idMatches s c.id)).length :=
    List.length_pos_of_mem (List.mem_filter.mpr ⟨hc0mem, hc0m⟩)
  refine ⟨rfl, rfl, rfl, rfl, ?_, ?_, ?_, ?_, ?_, ?_, ?_, ?_⟩
  · simp [getContactById, hfind, sendResponse]
  · simp [getContactById, hfind, sendResponse]
  · simp [postContact, hv, sendResponse]
  · simp [postContact, hv, sendResponse]
  · simp [putContact, hv, hpos, sendResponse]
  · simp [putContact, hv, hpos, sendResponse]
  · simp [deleteContact, hpos, sendResponse]
  · simp [deleteContact, hpos, sendResponse]

/-- Claim C8 witness: concrete instantiation on the one-row sample store. -/
theorem envelope_field_presence_witness :
    (isFalsy (Body.mk (some "Jane") (some "456") none none).name
      || isFalsy (Body.mk (some "Jane") (some "456") none none).phone) = false ∧
    findById "1" sampleDB.rows =
      some { id := 1, name := "John", phone := "123",
             email := none, address := none, created_at := 0 } ∧
    (healthCheck.data = none
    ∧ (getContacts sampleDB).data =
        some (Json.jarr ((sortByCreatedDesc sampleDB.rows).map contactToJson))
    ∧ (getContacts sampleDB).msg = none
    ∧ (getContacts emptyDB).data = some (Json.jarr [])
    ∧ (getContactById sampleDB "1").data =
        some (contactToJson { id := 1, name := "John", phone := "123",
                              email := none, address := none, created_at := 0 })
    ∧ (getContactById sampleDB "1").msg = none
    ∧ ((postContact sampleDB 7 (Body.mk (some "Jane") (some "456") none none)).1).data ≠ none
    ∧ ((postContact sampleDB 7 (Body.mk (some "Jane") (some "456") none none)).1).msg ≠ none
    ∧ ((putContact sampleDB "1" (Body.mk (some "Jane") (some "456") none none)).1).data ≠ none
    ∧ ((putContact sampleDB "1" (Body.mk (some "Jane") (some "456") none none)).1).msg ≠ none
    ∧ ((deleteContact sampleDB "1").1).data = none
    ∧ ((deleteContact sampleDB "1").1).msg ≠ none) :=
  ⟨by decide, by decide,
   envelope_field_presence sampleDB "1" (Body.mk (some "Jane") (some "456") none none) 7
     { id := 1, name := "John", phone := "123",
       email := none, address := none, created_at := 0 }
     (by decide) (by decide)⟩

/-! ## Claim C9 -/

/-- Claim C9: when email or address is absent from the body or supplied as
the empty string, the value written to storage by create and update is null
(`none`, never the empty string), and the value echoed in the success payload
is JSON null. -/
theorem optional_fields_stored_null (db : DB) (now : Nat) (s : String) (b : Body)
    (hb : (isFalsy b.name || isFalsy b.phone) = false)
    (he : b.email = none ∨ b.email = some "")
    (ha : b.address = none ∨ b.address = some "")
    (c0 : Contact) (hc : c0 ∈ db.rows) (hm : idMatches s c0.id = true) :
    (postContact db now b).2.rows =
      db.rows ++ [{ id := db.nextId, name := b.name.getD "", phone := b.phone.getD "",
                    email := none, address := none, created_at := now }]
    ∧ lookupField "email" (((postContact db now b).1).data.getD Json.jnull) = some Json.jnull
    ∧ lookupField "address" (((postContact db now b).1).data.getD Json.jnull) = some Json.jnull
    ∧ (∀ c ∈ (putContact db s b).2.rows,
        idMatches s c.id = true → c.email = none ∧ c.address = none)
    ∧ lookupField "email" (((putContact db s b).1).data.getD Json.jnull) = some Json.jnull
    ∧ lookupField "address" (((putContact db s b).1).data.getD Json.jnull) = some Json.jnull := by
  have hv : validateContactInput b.name b.phone = none := by
    simp [validateContactInput, hb]
  have hje : jsOrNull b.email = none := by
    rcases he with h | h <;> simp [jsOrNull, h]
  have hja : jsOrNull b.address = none := by
    rcases ha with h | h <;> simp [jsOrNull, h]
  have hpos : 0 < (db.rows.filter (fun c => idMatches s c.id)).length :=
    List.length_pos_of_mem (List.mem_filter.mpr ⟨hc, hm⟩)
  refine ⟨?_, ?_, ?_, ?_, ?_, ?_⟩
  · simp [postContact, hv, hje, hja]
  · simp [postContact, hv, hje, sendResponse, lookupField, List.lookup, optStrJson]
  · simp [postContact, hv, hja, sendResponse, lookupField, List.lookup, optStrJson]
  · intro c hcm hmc
    have hrows : (putContact db s b).2.rows = db.rows.map (updRow s b) := by
      simp [putContact, hv, hpos]
    rw [hrows] at hcm
    obtain ⟨c1, hc1, rfl⟩ := List.mem_map.mp hcm
    by_cases h1 : idMatches s c1.id = true
    · constructor <;> simp [updRow, h1, hje, hja]
    · rw [updRow_id] at hmc
      exact absurd hmc h1
  · simp [putContact, hv, hpos, sendResponse, lookupField, List.lookup, optStrJson, hje]
  · simp [putContact, hv, hpos, sendResponse, lookupField, List.lookup, optStrJson, hja]

/-- Claim C9 witness: create and update with an empty-string email and an
absent address on the one-row sample store. -/
theorem optional_fields_stored_null_witness :
    (isFalsy (Body.mk (some "Kim") (some "777") (some "") none).name
      || isFalsy (Body.mk (some "Kim") (some "777") (some "") none).phone) = false ∧
    ((Body.mk (some "Kim") (some "777") (some "") none).email = none
      ∨ (Body.mk (some "Kim") (some "777") (some "") none).email = some "") ∧
    ((Body.mk (some "Kim") (some "777") (some "") none).address = none
      ∨ (Body.mk (some "Kim") (some "777") (some "") none).address = some "") ∧
    ({ id := 1, name := "John", phone := "123",
       email := none, address := none, created_at := 0 } : Contact) ∈ sampleDB.rows ∧
    idMatches "1" (1 : Nat) = true ∧
    ((postContact sampleDB 4 (Body.mk (some "Kim") (some "777") (some "") none)).2.rows =
      sampleDB.rows ++ [{ id := sampleDB.nextId,
                          name := (Body.mk (some "Kim") (some "777") (some "") none).name.getD "",
                          phone := (Body.mk (some "Kim") (some "777") (some "") none).phone.getD "",
                          email := none, address := none, created_at := 4 }]
    ∧ lookupField "email"
        (((postContact sampleDB 4 (Body.mk (some "Kim") (some "777") (some "") none)).1).data.getD Json.jnull) =
        some Json.jnull
    ∧ lookupField "address"
        (((postContact sampleDB 4 (Body.mk (some "Kim") (some "777") (some "") none)).1).data.getD Json.jnull) =
        some Json.jnull
    ∧ (∀ c ∈ (putContact sampleDB "1" (Body.mk (some "Kim") (some "777") (some "") none)).2.rows,
        idMatches "1" c.id = true → c.email = none ∧ c.address = none)
    ∧ lookupField "email"
        (((putContact sampleDB "1" (Body.mk (some "Kim") (some "777") (some "") none)).1).data.getD Json.jnull) =
        some Json.jnull
    ∧ lookupField "address"
        (((putContact sampleDB "1" (Body.mk (some "Kim") (some "777") (some "") none)).1).data.getD Json.jnull) =
        some Json.jnull) :=
  ⟨by decide, Or.inr (by decide), Or.inl (by decide), by decide, by decide,
   optional_fields_stored_null sampleDB 4 "1" (Body.mk (some "Kim") (some "777") (some "") none)
     (by decide) (Or.inr (by decide)) (Or.inl (by decide))
     { id := 1, name := "John", phone := "123",
       email := none, address := none, created_at := 0 }
     (by decide) (by decide)⟩

/-! ## Claim C10 -/

/-- Claim C10: a successful update's payload carries the raw path-parameter
string as its id field (a JSON string), while a successful create's payload
carries the integer row identifier assigned by the store (a JSON number),
and a JSON string never equals a JSON number. -/
theorem id_field_type_mismatch (db : DB) (s : String) (b : Body) (now : Nat) (c0 : Contact)
    (hb : (isFalsy b.name || isFalsy b.phone) = false)
    (hc : c0 ∈ db.rows) (hm : idMatches s c0.id = true) :
    lookupField "id" (((putContact db s b).1).data.getD Json.jnull) = some (Json.jstr s)
    ∧ lookupField "id" (((postContact db now b).1).data.getD Json.jnull) =
        some (Json.jnum (db.nextId : Int))
    ∧ (∀ (t : String) (k : Int), Json.jstr t ≠ Json.jnum k) := by
  have hv : validateContactInput b.name b.phone = none := by
    simp [validateContactInput, hb]
  have hpos : 0 < (db.rows.filter (fun c => idMatches s c.id)).length :=
    List.length_pos_of_mem (List.mem_filter.mpr ⟨hc, hm⟩)
  refine ⟨?_, ?_, ?_⟩
  · simp [putContact, hv, hpos, sendResponse, lookupField, List.lookup]
  · simp [postContact, hv, sendResponse, lookupField, List.lookup]
  · intro t k h
    exact Json.noConfusion h

/-- Claim C10 witness: update and create on the one-row sample store. -/
theorem id_field_type_mismatch_witness :
    (isFalsy (Body.mk (some "Jane") (some "456") none none).name
      || isFalsy (Body.mk (some "Jane") (some "456") none none).phone) = false ∧
    ({ id := 1, name := "John", phone := "123",
       email := none, address := none, created_at := 0 } : Contact) ∈ sampleDB.rows ∧
    idMatches "1" (1 : Nat) = true ∧
    (lookupField "id"
        (((putContact sampleDB "1" (Body.mk (some "Jane") (some "456") none none)).1).data.getD Json.jnull) =
        some (Json.jstr "1")
    ∧ lookupField "id"
        (((postContact sampleDB 7 (Body.mk (some "Jane") (some "456") none none)).1).data.getD Json.jnull) =
        some (Json.jnum ((sampleDB.nextId : Nat) : Int))
    ∧ (∀ (t : String) (k : Int), Json.jstr t ≠ Json.jnum k)) :=
  ⟨by decide, by decide, by decide,
   id_field_type_mismatch sampleDB "1" (Body.mk (some "Jane") (some "456") none none) 7
     { id := 1, name := "John", phone := "123",
       email := none, address := none, created_at := 0 }
     (by decide) (by decide) (by decide)⟩
